import Mathlib

/-!
Verification development for the Secure Defence authentication portal.

The definitions below are a shallow embedding of the repository's
role-aware credential / MFA policy engine:

* JavaScript string primitives (`trim`, `toLowerCase`, `toUpperCase`,
  `replace(/\s+/g, "")`) modelled on `List Char` / `String`
  (case conversion is modelled on the ASCII range, which is the range the
  role patterns and policies constrain);
* the role policy registry `src/lib/roleConfig.ts`;
* the client login state machine `src/components/auth/LoginForm.tsx`
  (the variant defining `PASSWORD_POLICY_REGEX`, lines 791-1311);
* the client registration submission fork of `RegisterForm` (`handleSubmit`);
* the email-OTP hook `src/hooks/useEmailOtp.ts`;
* the server auth routes (`register` validator middleware
  `server/middleware/validator.js`, `POST /api/auth/login`,
  `POST /api/auth/verify-mfa`, `GET /api/auth/verify-email/:token`) and the
  Mongoose user schema `server/models/User.js`.

External capabilities (bcrypt comparison, the email-format check of the
`validator` npm package) are passed in as function parameters; the database
is modelled as a list of user records.
-/

/-! ## JavaScript string primitives -/

/-- The JavaScript whitespace set: the characters matched by `\s` in a
regular expression, which is also the set removed by `String.prototype.trim`
(WhiteSpace ∪ LineTerminator).  Members are given by code point:
TAB 9, LF 10, VT 11, FF 12, CR 13, SPACE 32, NBSP 160, OGHAM 5760,
U+2000-U+200A, LS 8232, PS 8233, NNBSP 8239, MMSP 8287, IDSP 12288,
BOM 65279. -/
def isJsWs (c : Char) : Bool :=
  decide (c.toNat = 9 ∨ c.toNat = 10 ∨ c.toNat = 11 ∨ c.toNat = 12 ∨
    c.toNat = 13 ∨ c.toNat = 32 ∨ c.toNat = 160 ∨ c.toNat = 5760 ∨
    (8192 ≤ c.toNat ∧ c.toNat ≤ 8202) ∨ c.toNat = 8232 ∨ c.toNat = 8233 ∨
    c.toNat = 8239 ∨ c.toNat = 8287 ∨ c.toNat = 12288 ∨ c.toNat = 65279)

/-- The JavaScript line-terminator set (the characters NOT matched by `.`
in a regular expression without the `s` flag): LF 10, CR 13, LS 8232, PS 8233. -/
def isJsLineTerm (c : Char) : Bool :=
  decide (c.toNat = 10 ∨ c.toNat = 13 ∨ c.toNat = 8232 ∨ c.toNat = 8233)

/-- ASCII-range model of the per-character effect of
`String.prototype.toLowerCase`. -/
def jsToLower (c : Char) : Char :=
  if 65 ≤ c.toNat ∧ c.toNat ≤ 90 then Char.ofNat (c.toNat + 32) else c

/-- ASCII-range model of the per-character effect of
`String.prototype.toUpperCase`. -/
def jsToUpper (c : Char) : Char :=
  if 97 ≤ c.toNat ∧ c.toNat ≤ 122 then Char.ofNat (c.toNat - 32) else c

/-- Drop trailing JS whitespace. -/
def trimEndList (l : List Char) : List Char :=
  (l.reverse.dropWhile isJsWs).reverse

/-- `String.prototype.trim`: drop leading and trailing JS whitespace. -/
def jsTrimList (l : List Char) : List Char :=
  trimEndList (l.dropWhile isJsWs)

/-- `value.trim()` on strings. -/
def jsTrim (s : String) : String := String.mk (jsTrimList s.data)

/-- `value.toLowerCase()` on strings (ASCII model). -/
def jsLower (s : String) : String := String.mk (s.data.map jsToLower)

/-- `value.toUpperCase()` on strings (ASCII model). -/
def jsUpper (s : String) : String := String.mk (s.data.map jsToUpper)

/-- `value.replace(/\s+/g, "")`: remove every JS whitespace character. -/
def jsStripWs (s : String) : String :=
  String.mk (s.data.filter (fun c => !isJsWs c))

/-- `value.trim().toLowerCase()`, the email normalization used by the
login form. -/
def jsTrimLower (s : String) : String :=
  String.mk ((jsTrimList s.data).map jsToLower)

/-- ASCII decimal digit (regex `\d` / `[0-9]`). -/
def isAsciiDigitB (c : Char) : Bool :=
  decide (48 ≤ c.toNat ∧ c.toNat ≤ 57)

/-- ASCII uppercase letter (regex `[A-Z]`). -/
def isUpperAlphaB (c : Char) : Bool :=
  decide (65 ≤ c.toNat ∧ c.toNat ≤ 90)

/-- ASCII lowercase letter (regex `[a-z]`). -/
def isLowerAlphaB (c : Char) : Bool :=
  decide (97 ≤ c.toNat ∧ c.toNat ≤ 122)

/-- ASCII alphanumeric (regex `[A-Za-z0-9]`). -/
def isAlnumB (c : Char) : Bool :=
  isUpperAlphaB c || isLowerAlphaB c || isAsciiDigitB c

/-- Split a character list at the first occurrence of `c`: returns the
part before and the part after, or `none` when `c` does not occur. -/
def splitAtFirst (c : Char) : List Char → Option (List Char × List Char)
  | [] => none
  | x :: xs =>
    if x = c then some ([], xs)
    else
      match splitAtFirst c xs with
      | some (l, r) => some (x :: l, r)
      | none => none

/-! ## Role identity / email patterns (`src/lib/roleConfig.ts`) -/

/-- Character class `[a-z0-9._%+-]` of the email local parts (applied to an
already-lowercased candidate, which models the `i` flag). -/
def emailLocalChar (c : Char) : Bool :=
  isLowerAlphaB c || isAsciiDigitB c ||
  c == '.' || c == '_' || c == '%' || c == '+' || c == '-'

/-- `defenceEmailPattern = /^[a-z0-9._%+-]+@(?:army|navy|airforce|drdo)\.(?:mil|gov)\.in$/i`.
The local-part class excludes `@`, so the regex splits the candidate at its
first `@`; the domain must then be one of the eight literal alternatives. -/
def defenceEmailTest (s : String) : Bool :=
  let t := s.data.map jsToLower
  match splitAtFirst '@' t with
  | none => false
  | some (l, r) =>
    !l.isEmpty && l.all emailLocalChar &&
    (String.mk r == "army.mil.in" || String.mk r == "army.gov.in" ||
     String.mk r == "navy.mil.in" || String.mk r == "navy.gov.in" ||
     String.mk r == "airforce.mil.in" || String.mk r == "airforce.gov.in" ||
     String.mk r == "drdo.mil.in" || String.mk r == "drdo.gov.in")

/-- `adminEmailPattern = /^[a-z0-9._%+-]+@(?:mod\.gov\.in|defence\.in)$/i`. -/
def adminEmailTest (s : String) : Bool :=
  let t := s.data.map jsToLower
  match splitAtFirst '@' t with
  | none => false
  | some (l, r) =>
    !l.isEmpty && l.all emailLocalChar &&
    (String.mk r == "mod.gov.in" || String.mk r == "defence.in")

/-- Character class `[a-z0-9.-]` of the generic email domain. -/
def genericDomainChar (c : Char) : Bool :=
  isLowerAlphaB c || isAsciiDigitB c || c == '.' || c == '-'

/-- Auditor `idPattern = /^[a-z0-9._%+-]+@[a-z0-9.-]+\.[a-z]{2,}$/i`
(a generic email shape).  The domain must decompose as
`body ++ "." ++ tld` with `body` non-empty over `[a-z0-9.-]` and `tld` at
least two letters ending the string; since the character before the `tld`
must be a dot, the `tld` is exactly the maximal trailing letter run. -/
def genericEmailTest (s : String) : Bool :=
  let t := s.data.map jsToLower
  match splitAtFirst '@' t with
  | none => false
  | some (l, r) =>
    !l.isEmpty && l.all emailLocalChar &&
    (let rev := r.reverse
     let run := rev.takeWhile isLowerAlphaB
     let rest := rev.drop run.length
     decide (2 ≤ run.length) &&
     (match rest with
      | [] => false
      | d :: body => d == '.' && !body.isEmpty && body.all genericDomainChar))

/-- Personnel `idPattern = /^(?:ARMY|NAVY|AIRF|DRDO)[A-Z0-9]{2,6}$/`
(case-sensitive; all four prefixes have four characters). -/
def personnelIdTest (s : String) : Bool :=
  let t := s.data
  let pre := String.mk (t.take 4)
  let rest := t.drop 4
  (pre == "ARMY" || pre == "NAVY" || pre == "AIRF" || pre == "DRDO") &&
  decide (2 ≤ rest.length) && decide (rest.length ≤ 6) &&
  rest.all (fun c => isUpperAlphaB c || isAsciiDigitB c)

/-- Family `idPattern = /^D-FID-\d{4,}$/i`. -/
def familyIdTest (s : String) : Bool :=
  let t := s.data.map jsToLower
  let pre := String.mk (t.take 6)
  let rest := t.drop 6
  pre == "d-fid-" && decide (4 ≤ rest.length) && rest.all isAsciiDigitB

/-- Veteran `idPattern = /^(?:SPARSH|PEN)-?\d{6,8}$/i`. -/
def veteranIdTest (s : String) : Bool :=
  let t := s.data.map jsToLower
  let afterPre :=
    if String.mk (t.take 6) == "sparsh" then some (t.drop 6)
    else if String.mk (t.take 3) == "pen" then some (t.drop 3)
    else none
  match afterPre with
  | none => false
  | some u =>
    let digits := match u with
      | '-' :: v => v
      | v => v
    decide (6 ≤ digits.length) && decide (digits.length ≤ 8) &&
    digits.all isAsciiDigitB

/-- Character class `[A-Z0-9-]` of the CERT analyst id (lowercased input). -/
def certBodyChar (c : Char) : Bool :=
  isLowerAlphaB c || isAsciiDigitB c || c == '-'

/-- CERT `idPattern = /^CERT-[A-Z0-9-]*\d{3,}$/i`.  After the `CERT-`
prefix the remainder ranges over `[A-Z0-9-]` (digits included), so the
regex accepts exactly when the remainder is at least three characters from
that class and ends in three digits. -/
def certIdTest (s : String) : Bool :=
  let t := s.data.map jsToLower
  let pre := String.mk (t.take 5)
  let rest := t.drop 5
  pre == "cert-" && decide (3 ≤ rest.length) && rest.all certBodyChar &&
  (rest.drop (rest.length - 3)).all isAsciiDigitB

/-- `\d{2,}$`: at least two digits ending the string. -/
def cmdTailDigits (l : List Char) : Bool :=
  decide (2 ≤ l.length) && l.all isAsciiDigitB

/-- The suffix `(?:-[A-Z]{1,3})*-?\d{2,}$` of the commander id pattern
(lowercased input), written with the backtracking alternatives spelled
out: either the digit run starts here, or a hyphen is followed by the
digit run (`-?` branch) or by one to three letters and a recursive match. -/
def cmdTail : List Char → Bool
  | [] => false
  | c :: r =>
    cmdTailDigits (c :: r) ||
    (c == '-' &&
      (cmdTailDigits r ||
        match r with
        | [] => false
        | a :: r1 =>
          isLowerAlphaB a &&
          (cmdTail r1 ||
            match r1 with
            | [] => false
            | b :: r2 =>
              isLowerAlphaB b &&
              (cmdTail r2 ||
                match r2 with
                | [] => false
                | d :: r3 => isLowerAlphaB d && cmdTail r3))))

/-- Commander `idPattern = /^(?:CMD|CO|HQ)(?:-[A-Z]{1,3})*-?\d{2,}$/i`.
The three prefixes are mutually non-overlapping, so the alternation is a
deterministic dispatch on the leading characters. -/
def commanderIdTest (s : String) : Bool :=
  let t := s.data.map jsToLower
  if String.mk (t.take 3) == "cmd" then cmdTail (t.drop 3)
  else if String.mk (t.take 2) == "co" then cmdTail (t.drop 2)
  else if String.mk (t.take 2) == "hq" then cmdTail (t.drop 2)
  else false

/-- `PASSWORD_POLICY_REGEX = /^(?=.*[A-Z])(?=.*[0-9])(?=.*[^A-Za-z0-9]).{12,}$/`
(LoginForm.tsx line 792).  `.{12,}$` forces the entire string to consist of
at least twelve non-line-terminator characters, after which the three
lookaheads amount to the presence of an uppercase letter, a digit, and a
non-alphanumeric character. -/
def passwordPolicyRegexTest (p : String) : Bool :=
  p.data.all (fun c => !isJsLineTerm c) &&
  decide (12 ≤ p.data.length) &&
  p.data.any isUpperAlphaB &&
  p.data.any isAsciiDigitB &&
  p.data.any (fun c => !isAlnumB c)

/-- `specialCharacterRegex = /[!@#$%^&*()_+\-=\[\]{};':"\\|,.<>\/?]/`
(LoginForm.tsx line 1176), membership given by code point:
`!` 33, `@` 64, `#` 35, `$` 36, `%` 37, `^` 94, `&` 38, `*` 42, `(` 40,
`)` 41, `_` 95, `+` 43, `-` 45, `=` 61, `[` 91, `]` 93, brace 123,
brace 125, `;` 59, quote 39, `:` 58, double quote 34, backslash 92,
`|` 124, `,` 44, `.` 46, `<` 60, `>` 62, `/` 47, `?` 63. -/
def loginSpecialChar (c : Char) : Bool :=
  decide (c.toNat = 33 ∨ c.toNat = 64 ∨ c.toNat = 35 ∨ c.toNat = 36 ∨
    c.toNat = 37 ∨ c.toNat = 94 ∨ c.toNat = 38 ∨ c.toNat = 42 ∨
    c.toNat = 40 ∨ c.toNat = 41 ∨ c.toNat = 95 ∨ c.toNat = 43 ∨
    c.toNat = 45 ∨ c.toNat = 61 ∨ c.toNat = 91 ∨ c.toNat = 93 ∨
    c.toNat = 123 ∨ c.toNat = 125 ∨ c.toNat = 59 ∨ c.toNat = 39 ∨
    c.toNat = 58 ∨ c.toNat = 34 ∨ c.toNat = 92 ∨ c.toNat = 124 ∨
    c.toNat = 44 ∨ c.toNat = 46 ∨ c.toNat = 60 ∨ c.toNat = 62 ∨
    c.toNat = 47 ∨ c.toNat = 63)

/-! ## Role policy registry (`src/lib/roleConfig.ts`) -/

/-- `RoleKey` union type. -/
inductive RoleKey
  | personnel | family | veteran | cert | commander | admin | auditor
deriving DecidableEq

/-- `inputType?: "text" | "email"`. -/
inductive InputType
  | text | email
deriving DecidableEq

/-- MFA method literals `"totp" | "sms"`. -/
inductive MfaMethod
  | totp | sms
deriving DecidableEq

/-- `passwordPolicy` record of a `RoleConfig`.  The optional
`requireSpecialCharacter` flag is only ever read for truthiness, so an
absent flag is modelled as `false`. -/
structure PasswordPolicy where
  minLength : Nat
  requireSpecialCharacter : Bool
  message : String

/-- `RoleConfig` (logic-bearing fields; the display-only fields
`idLabel`, `placeholder`, `tooltip`, `securityNotes` are omitted).
Optional fields that are only read for truthiness
(`requiresDefenceEmail`, `requiresMfa`, `highPrivilege`, `readOnlyRole`)
are modelled as `Bool` with `false` for absent; `enforceUppercase` is kept
as `Option Bool` because the source distinguishes `=== false` from
absent. -/
structure RoleConfig where
  idPattern : String → Bool
  idValidationMessage : String
  inputType : Option InputType := none
  enforceUppercase : Option Bool := none
  requiresDefenceEmail : Bool := false
  emailPattern : Option (String → Bool) := none
  emailErrorMessage : Option String := none
  emailWarningMessage : Option String := none
  emailWhitelist : Option (List String) := none
  requiresMfa : Bool := false
  enforcedMfaMethod : Option MfaMethod := none
  passwordPolicy : Option PasswordPolicy := none
  highPrivilege : Bool := false
  readOnlyRole : Bool := false

/-- `auditorWhitelist`. -/
def auditorWhitelist : List String :=
  ["auditor@mod.gov.in", "audit.ops@mod.gov.in", "audit.ctrl@defence.in"]

/-- `roleConfigurations` (roleConfig.ts lines 54-179). -/
def roleConfigurations : RoleKey → RoleConfig
  | .personnel =>
    { idPattern := personnelIdTest
      idValidationMessage := "Service ID must be 6-10 characters, start with ARMY, NAVY, AIRF, or DRDO, and contain only letters/numbers."
      enforceUppercase := some true
      requiresDefenceEmail := true
      emailPattern := some defenceEmailTest
      emailErrorMessage := some "Defence Personnel must use an official defence email domain (army/navy/airforce/drdo)." }
  | .family =>
    { idPattern := familyIdTest
      idValidationMessage := "D-FID must start with D-FID- followed by at least 4 digits."
      enforceUppercase := some true
      emailWarningMessage := some "Non-defence email detected. Registration will be flagged for manual verification." }
  | .veteran =>
    { idPattern := veteranIdTest
      idValidationMessage := "ID must begin with SPARSH or PEN and include 6-8 digits (hyphen optional)."
      enforceUppercase := some true
      requiresDefenceEmail := true
      emailPattern := some defenceEmailTest
      emailErrorMessage := some "Veterans are required to use a registered defence or pension-linked email." }
  | .cert =>
    { idPattern := certIdTest
      idValidationMessage := "Analyst ID must include the CERT- prefix and end with digits."
      enforceUppercase := some true
      requiresDefenceEmail := true
      emailPattern := some defenceEmailTest
      emailErrorMessage := some "CERT Analysts must use a defence-controlled email domain."
      requiresMfa := true
      enforcedMfaMethod := some .totp }
  | .commander =>
    { idPattern := commanderIdTest
      idValidationMessage := "Command IDs must start with CMD, CO, or HQ and end with digits (unit codes optional)."
      enforceUppercase := some true
      requiresDefenceEmail := true
      emailPattern := some defenceEmailTest
      emailErrorMessage := some "Command-level access requires a verified defence email."
      requiresMfa := true
      enforcedMfaMethod := some .totp
      highPrivilege := true }
  | .admin =>
    { idPattern := adminEmailTest
      idValidationMessage := "Email must belong to the mod.gov.in or defence.in domain."
      inputType := some .email
      requiresMfa := true
      enforcedMfaMethod := some .totp
      requiresDefenceEmail := true
      emailPattern := some adminEmailTest
      emailErrorMessage := some "Administrators must authenticate with mod.gov.in or defence.in email."
      passwordPolicy := some
        { minLength := 12
          requireSpecialCharacter := true
          message := "Passwords must be at least 12 characters with a special character for admin access." } }
  | .auditor =>
    { idPattern := genericEmailTest
      idValidationMessage := "Enter a valid official email address."
      inputType := some .email
      requiresDefenceEmail := true
      emailPattern := some adminEmailTest
      emailErrorMessage := some "Auditor email must match approved defence domains and whitelist."
      emailWhitelist := some auditorWhitelist
      requiresMfa := true
      enforcedMfaMethod := some .totp
      readOnlyRole := true }

/-- The `value` fields of `roleOptions`, the role choices offered by the
registration/login forms (roleConfig.ts lines 44-52). -/
def roleOptionValues : List String :=
  ["personnel", "family", "veteran", "cert", "commander", "admin", "auditor"]

/-! ## Client login state machine (`src/components/auth/LoginForm.tsx`,
variant at lines 791-1311) -/

/-- `BASE_PASSWORD_POLICY` (LoginForm.tsx line 791). -/
def basePasswordPolicyMsg : String :=
  "Minimum 12 characters, at least one uppercase letter, one number, and one special character."

/-- `computeNormalizedId` (LoginForm.tsx lines 827-838; the identical
helper also appears in RegisterForm and in the first LoginForm variant):
no config → `value.trim()`; email-typed config → `value.trim().toLowerCase()`;
otherwise strip all whitespace and uppercase unless
`enforceUppercase === false`, in which case trim the stripped value. -/
def computeNormalizedId (value : String) (config : Option RoleConfig) : String :=
  match config with
  | none => String.mk (jsTrimList value.data)
  | some c =>
    if c.inputType = some InputType.email then
      String.mk ((jsTrimList value.data).map jsToLower)
    else
      let cleaned := value.data.filter (fun ch => !isJsWs ch)
      if c.enforceUppercase = some false then String.mk (jsTrimList cleaned)
      else String.mk (cleaned.map jsToUpper)

/-- `requiresEmailEntry` (LoginForm.tsx lines 1031-1033):
`Boolean(config?.requiresDefenceEmail || config?.inputType === "email")`. -/
def requiresEmailEntryOf : Option RoleConfig → Bool
  | none => false
  | some c => c.requiresDefenceEmail || c.inputType == some .email

/-- `showServiceIdField` (LoginForm.tsx line 1034):
`config?.inputType !== "email"`. -/
def showServiceIdFieldOf : Option RoleConfig → Bool
  | none => true
  | some c => !(c.inputType == some .email)

/-- `minRequiredPasswordLength` (LoginForm.tsx lines 1035-1038). -/
def minRequiredPasswordLengthOf (config : Option RoleConfig) : Nat :=
  max 12 ((config.bind (fun c => c.passwordPolicy.map (fun p => p.minLength))).getD 12)

/-- `baselinePasswordMessage` (LoginForm.tsx lines 1040-1046). -/
def baselinePasswordMessageOf (config : Option RoleConfig) : String :=
  if 12 < minRequiredPasswordLengthOf config then
    "Minimum " ++ toString (minRequiredPasswordLengthOf config) ++
      " characters, at least one uppercase letter, one number, and one special character."
  else basePasswordPolicyMsg

/-- Component state of the login form (the `useState` cells that carry the
login lifecycle; modal/visibility flags are omitted). -/
structure LoginFormState where
  currentStep : Nat := 1
  mfaMethod : MfaMethod := .totp
  failedAttempts : Nat := 0
  isLocked : Bool := false
  lockoutTime : Nat := 60
  userType : Option RoleKey := none
  serviceId : String := ""
  serviceIdError : String := ""
  email : String := ""
  emailError : String := ""
  password : String := ""
  passwordError : String := ""
  phoneNumber : String := ""
  phoneError : String := ""
  otpCode : String := ""
  otpSent : Bool := false
  otpCountdown : Nat := 0

/-- Outcome of a login submission, one constructor per `toast` / state
branch of `handleLogin`. -/
inductive LoginOutcome
  | missingInformation
  | credentialValidationFailed (message : String)
  | emailValidationFailed (message : String)
  | passwordPolicyRejected (message : String)
  | credentialsVerified
  | loginFailed (remaining : Nat)
  | accountLocked
deriving DecidableEq

/-- `validateServiceId` (LoginForm.tsx lines 952-960, second variant):
only the role's `idPattern` is checked; on failure `serviceIdError` is set
to `idValidationMessage`, on success it is cleared. -/
def validateServiceId2 (value : String) (config : RoleConfig) : Bool :=
  config.idPattern value

/-- `validateEmailForRole` (LoginForm.tsx lines 962-985): trims and
lowercases the candidate, then checks in order emptiness, the whitelist,
and the email pattern, returning the error message or `null`. -/
def validateEmailForRole (value : String) (config : RoleConfig) : Option String :=
  let candidate := jsTrimLower value
  if candidate == "" then
    some (config.emailErrorMessage.getD "Official defence email required.")
  else if (match config.emailWhitelist with
           | some wl => !wl.contains candidate
           | none => false) then
    some "Email not listed in the approved roster."
  else if (match config.emailPattern with
           | some pat => !pat candidate
           | none => false) then
    some (config.emailErrorMessage.getD "Please use the required official email domain.")
  else none

/-- The password-policy block of `handleLogin`
(LoginForm.tsx lines 1164-1189): first the baseline
`PASSWORD_POLICY_REGEX`, then the role's own `passwordPolicy` (minimum
length and, when `requireSpecialCharacter`, the special-character class);
returns the rejection message, or `none` when the password passes. -/
def clientPasswordCheck (config : RoleConfig) (password : String) : Option String :=
  if !passwordPolicyRegexTest password then
    some (baselinePasswordMessageOf (some config))
  else
    match config.passwordPolicy with
    | some pol =>
      if password.length < pol.minLength ||
         (pol.requireSpecialCharacter && !(password.data.any loginSpecialChar)) then
        some pol.message
      else none
    | none => none

/-- The body of `handleLogin` (LoginForm.tsx lines 1118-1225) for a
selected role's configuration.  The simulated password check
(`Math.random() > 0.3`, line 1194) is the `passwordCheckOk` parameter.
State writes (`setServiceId`, `setEmail`, `setPasswordError`,
`setFailedAttempts`, `setIsLocked`, the OTP resets of the success branch)
follow the source line by line. -/
def handleLoginWithConfig (config : RoleConfig) (s : LoginFormState)
    (passwordCheckOk : Bool) : LoginFormState × LoginOutcome :=
  if (showServiceIdFieldOf (some config) && s.serviceId == "") ||
     (requiresEmailEntryOf (some config) && jsTrim s.email == "") ||
     s.password == "" then
    (s, .missingInformation)
  else
    let s1 :=
      if showServiceIdFieldOf (some config) then
        { s with serviceId := computeNormalizedId s.serviceId (some config) }
      else s
    if showServiceIdFieldOf (some config) &&
       !validateServiceId2 s1.serviceId config then
      ({ s1 with serviceIdError := config.idValidationMessage },
       .credentialValidationFailed config.idValidationMessage)
    else
      let s2 :=
        if showServiceIdFieldOf (some config) then
          { s1 with serviceIdError := "" }
        else s1
      let s3 :=
        if requiresEmailEntryOf (some config) then
          { s2 with email := jsTrimLower s2.email }
        else s2
      match (if requiresEmailEntryOf (some config) then
               validateEmailForRole s3.email config
             else none) with
      | some msg =>
        ({ s3 with emailError := msg }, .emailValidationFailed msg)
      | none =>
        let s4 :=
          if requiresEmailEntryOf (some config) then
            { s3 with emailError := "" }
          else s3
        match clientPasswordCheck config s4.password with
        | some msg =>
          ({ s4 with passwordError := msg }, .passwordPolicyRejected msg)
        | none =>
          let s5 := { s4 with passwordError := "" }
          if passwordCheckOk then
            ({ s5 with currentStep := 3, otpSent := false,
                       otpCountdown := 0, otpCode := "" },
             .credentialsVerified)
          else
            let n := s5.failedAttempts + 1
            if 3 ≤ n then
              ({ s5 with failedAttempts := n, isLocked := true },
               .accountLocked)
            else
              ({ s5 with failedAttempts := n }, .loginFailed (3 - n))

/-- `handleLogin`, dispatching on the selected role: with no role the
missing-information branch is taken (`!userType`, line 1124); with a role
the body runs against that role's configuration. -/
def handleLogin (s : LoginFormState) (passwordCheckOk : Bool) :
    LoginFormState × LoginOutcome :=
  match s.userType with
  | none => (s, .missingInformation)
  | some role => handleLoginWithConfig (roleConfigurations role) s passwordCheckOk

/-- A login submission as seen from the page: when `isLocked` is set the
component renders the Account Locked page instead of the form
(LoginForm.tsx line 1279), so the submit handler — and with it the
password check — is unreachable and the attempt terminates at the
`AccountLocked` outcome with the state untouched. -/
def attemptLogin (s : LoginFormState) (passwordCheckOk : Bool) :
    LoginFormState × LoginOutcome :=
  if s.isLocked then (s, .accountLocked) else handleLogin s passwordCheckOk

/-- `handleRoleChange` (LoginForm.tsx lines 840-852). -/
def handleRoleChange (s : LoginFormState) (value : RoleKey) : LoginFormState :=
  { s with userType := some value, serviceId := "", serviceIdError := "",
           email := "", emailError := "", passwordError := "",
           phoneNumber := "", phoneError := "",
           mfaMethod := ((roleConfigurations value).enforcedMfaMethod).getD .totp }

/-- The non-enforced tail of `handleMfaMethodChange`
(LoginForm.tsx lines 937-949): honour the selection and reset the OTP
state; the non-sms branch also clears the phone error. -/
def handleMfaMethodChangeFree (s : LoginFormState) (value : String) : LoginFormState :=
  if value == "sms" then
    { s with mfaMethod := .sms, otpSent := false, otpCountdown := 0, otpCode := "" }
  else
    { s with mfaMethod := .totp, phoneError := "",
             otpSent := false, otpCountdown := 0, otpCode := "" }

/-- `handleMfaMethodChange` (LoginForm.tsx lines 931-950): when the role's
policy enforces a method, the user's selection is overridden and nothing
else changes; otherwise the selection is honoured and the OTP state is
reset (the non-sms branch also clears the phone error). -/
def handleMfaMethodChange (s : LoginFormState) (value : String) : LoginFormState :=
  match s.userType.map roleConfigurations with
  | some config =>
    match config.enforcedMfaMethod with
    | some m => { s with mfaMethod := m }
    | none => handleMfaMethodChangeFree s value
  | none => handleMfaMethodChangeFree s value

/-- Outcome of an MFA verification submission, one constructor per branch
of `handleMFAVerify` (LoginForm.tsx lines 1227-1276). -/
inductive MfaVerifyOutcome
  | phoneRequired
  | otpNotSent
  | otpExpired
  | authSuccess
  | invalidOtp
deriving DecidableEq

/-- `handleMFAVerify` (LoginForm.tsx lines 1227-1276): the sms branch
requires a phone number, a sent OTP, and a live countdown before the code
is examined; the shared tail accepts exactly the six-character codes. -/
def handleMFAVerify (s : LoginFormState) : LoginFormState × MfaVerifyOutcome :=
  if s.mfaMethod == .sms && s.phoneNumber.length < 10 then
    ({ s with phoneError := "Enter a valid phone number (10-15 digits)." },
     .phoneRequired)
  else if s.mfaMethod == .sms && !s.otpSent then
    (s, .otpNotSent)
  else if s.mfaMethod == .sms && s.otpCountdown == 0 then
    (s, .otpExpired)
  else if s.otpCode.length == 6 then
    ({ s with otpCountdown := 0, otpSent := false }, .authSuccess)
  else
    (s, .invalidOtp)

/-- Fold a list of user MFA-method selections over the state. -/
def applyMfaMethodRequests (s : LoginFormState) : List String → LoginFormState
  | [] => s
  | v :: vs => applyMfaMethodRequests (handleMfaMethodChange s v) vs

/-- The guard conjunction of `handleLogin` up to the simulated password
check: the submission carries a role, the required fields, a service id
accepted by the role pattern after normalization, an email accepted by
`validateEmailForRole` when the role requires one, and a password passing
the baseline regex and the role policy.  A state satisfying this predicate
reaches the `Math.random()` credential check of line 1194. -/
def validSubmissionWithConfig (config : RoleConfig) (s : LoginFormState) : Bool :=
  !(showServiceIdFieldOf (some config) && s.serviceId == "") &&
  !(requiresEmailEntryOf (some config) && jsTrim s.email == "") &&
  !(s.password == "") &&
  (!showServiceIdFieldOf (some config) ||
    validateServiceId2 (computeNormalizedId s.serviceId (some config)) config) &&
  (!requiresEmailEntryOf (some config) ||
    (validateEmailForRole (jsTrimLower s.email) config).isNone) &&
  (clientPasswordCheck config s.password).isNone

/-- The guard conjunction dispatching on the selected role. -/
def validLoginSubmission (s : LoginFormState) : Bool :=
  match s.userType with
  | none => false
  | some role => validSubmissionWithConfig (roleConfigurations role) s

/-! ## Email OTP hook (`src/hooks/useEmailOtp.ts`, `src/lib/auth/emailOtp.ts`) -/

/-- `OTP_EXPIRY_SECONDS` (emailOtp.ts). -/
def OTP_EXPIRY_SECONDS : Nat := 60

/-- `isValidOtpFormat` (emailOtp.ts): `/^\d{6}$/`. -/
def isValidOtpFormat (otp : String) : Bool :=
  otp.data.length == 6 && otp.data.all isAsciiDigitB

/-- `sanitizeOtpInput` (emailOtp.ts): keep only digits, at most six. -/
def sanitizeOtpInput (value : String) : String :=
  String.mk ((value.data.filter isAsciiDigitB).take 6)

/-- The `useState` cells of the `useEmailOtp` hook. -/
structure OtpHookState where
  otpCode : String := ""
  otpSent : Bool := false
  otpCountdown : Nat := 0
  otpError : String := ""
deriving DecidableEq

/-- One firing of the countdown interval started by `startCountdown`
(useEmailOtp.ts lines 42-51): at one or below the countdown drops to zero
(and the timer is cleared), otherwise it decrements. -/
def otpTick (s : OtpHookState) : OtpHookState :=
  if s.otpCountdown ≤ 1 then { s with otpCountdown := 0 }
  else { s with otpCountdown := s.otpCountdown - 1 }

/-- `sendOtp` (useEmailOtp.ts lines 62-81) with no custom `onSend`
handler: an empty (after trim) email is rejected; otherwise the error and
code are cleared, the sent flag set, and the countdown started at
`expirySeconds`. -/
def sendOtpHook (expirySeconds : Nat) (email : String) (s : OtpHookState) :
    OtpHookState × Bool :=
  if email == "" || jsTrim email == "" then
    ({ s with otpError := "Email is required to receive OTP." }, false)
  else
    ({ s with otpError := "", otpCode := "", otpSent := true,
              otpCountdown := expirySeconds }, true)

/-- `setOtpCode` (useEmailOtp.ts lines 54-60): sanitize the input and
clear a pending error. -/
def setOtpCodeHook (value : String) (s : OtpHookState) : OtpHookState :=
  { s with otpCode := sanitizeOtpInput value,
           otpError := if s.otpError == "" then s.otpError else "" }

/-- `verifyOtp` (useEmailOtp.ts lines 83-102): the checks run in order —
no OTP requested, countdown expired, then code format; the expiry check
precedes any examination of the code value, and no stored code is ever
compared (server-side verification does not exist in this flow). -/
def verifyOtpHook (s : OtpHookState) : Bool × OtpHookState :=
  if !s.otpSent then
    (false, { s with otpError := "Please request an OTP first." })
  else if s.otpCountdown == 0 then
    (false, { s with otpError := "OTP has expired. Please request a new one." })
  else if !isValidOtpFormat s.otpCode then
    (false, { s with otpError := "Please enter a valid 6-digit code." })
  else
    (true, s)

/-! ## Client registration submission (`RegisterForm`, part of the same
component tree; `handleSubmit` at lines 741-774 of the register form) -/

/-- Terminal outcome of the registration submission. -/
inductive RegSubmitOutcome
  | termsRequired
  | verified
  | pendingManualReview
deriving DecidableEq

/-- Backend invocations a client flow can make; used to record that a flow
performs none. -/
inductive BackendCall
  | registerApi
deriving DecidableEq

/-- `handleSubmit` of the register form (lines 741-774): after the
eligibility-terms guard, the outcome fork evaluates
`defenceEmailPattern.test(email.toLowerCase())` — a defence-domain email
reaches the automated `Verified` outcome (MFA setup shown), anything else
reaches `PendingManualReview`.  The handler performs no backend call (its
only effects are toasts and component state), so the recorded list of
backend invocations is empty on every path: in particular no
email-verification token is issued for a pending-manual-review
registration. -/
def handleSubmitReg (agreedToTerms : Bool) (email : String) :
    RegSubmitOutcome × List BackendCall :=
  if !agreedToTerms then (.termsRequired, [])
  else if defenceEmailTest (jsLower email) then (.verified, [])
  else (.pendingManualReview, [])

/-! ## Server: user schema and auth routes (`server/models/User.js`,
`server/routes/auth.js` = `src/unnamed/part_006`,
`server/middleware/validator.js`) -/

/-- A document of the Mongoose `User` collection (User.js).  Timestamps
are `Nat` milliseconds; nullable fields are `Option`. -/
structure ServerUser where
  id : String
  fullName : String
  officialEmail : String
  mobileNumber : String
  credentialId : String
  role : String
  passwordHash : String
  authMethod : String
  totpSecret : Option String := none
  isActivated : Bool := false
  emailVerified : Bool := false
  emailVerificationToken : Option String := none
  emailVerificationExpiry : Option Nat := none
  lastVerificationEmailSent : Option Nat := none
  lastLogin : Option Nat := none
deriving DecidableEq

/-- The `role` enum of the user schema (User.js lines 31-35): a document
whose role is outside this list fails schema validation and cannot be
stored. -/
def userRoleEnum : List String :=
  ["personnel", "family", "veteran", "cert", "admin"]

/-- The `user` payload of the login success response
(auth routes, lines 208-219): `mfaEnabled` is the literal `true`, and
`totpSecret` is the stored secret exactly when the account's method is
`authenticator`. -/
structure LoginUserPayload where
  id : String
  email : String
  role : String
  mfaEnabled : Bool
  mfaMethod : String
  totpSecret : Option String
deriving DecidableEq

/-- Responses of `POST /api/auth/login` (auth routes, lines 135-227). -/
inductive LoginResponse
  | fieldsRequired
  | invalidCredentials
  | notActivated
  | emailNotVerified (email : String)
  | loginOk (user : LoginUserPayload)
deriving DecidableEq

/-- `POST /api/auth/login` (auth routes, lines 135-227).  `bcryptCompare`
is the bcrypt capability; the user lookup is
`findOne({$or: [{officialEmail: identifier.toLowerCase()},
{credentialId: identifier.toUpperCase()}], role})` over the document
list. -/
def loginHandler (bcryptCompare : String → String → Bool)
    (db : List ServerUser) (identifier password role : String) : LoginResponse :=
  if identifier == "" || password == "" || role == "" then
    .fieldsRequired
  else
    match db.find? (fun u =>
        (u.officialEmail == jsLower identifier ||
         u.credentialId == jsUpper identifier) && u.role == role) with
    | none => .invalidCredentials
    | some u =>
      if !bcryptCompare password u.passwordHash then .invalidCredentials
      else if !u.isActivated then .notActivated
      else if !u.emailVerified then .emailNotVerified u.officialEmail
      else
        .loginOk
          { id := u.id, email := u.officialEmail, role := u.role,
            mfaEnabled := true, mfaMethod := u.authMethod,
            totpSecret := if u.authMethod == "authenticator" then u.totpSecret else none }

/-- The JWT minted by `POST /api/auth/verify-mfa` (auth routes, lines
250-258).  The signed payload reads `user.email`, a path that does not
exist on the user schema (which stores `officialEmail`), hence `none`. -/
structure SessionToken where
  userId : String
  email : Option String
  role : String
  expiresIn : String
deriving DecidableEq

/-- Responses of `POST /api/auth/verify-mfa` (auth routes, lines 233-278). -/
inductive VerifyMfaResponse
  | userNotFound
  | mfaVerified (token : SessionToken) (userId : String) (fullName : String)
deriving DecidableEq

/-- Replace the first element satisfying `p` by `f` of it. -/
def updateFirst (p : ServerUser → Bool) (f : ServerUser → ServerUser) :
    List ServerUser → List ServerUser
  | [] => []
  | u :: us => if p u then f u :: us else u :: updateFirst p f us

/-- `POST /api/auth/verify-mfa` (auth routes, lines 233-278): look the
user up by id, stamp `lastLogin`, sign a seven-day JWT, and respond
success.  The request's `code` and `method` fields are read on line 235
and never used again: no TOTP verification, no OTP-challenge check, and no
middleware (`validateMfaVerification` is not applied to this route). -/
def verifyMfaHandler (db : List ServerUser) (userId code method : String)
    (now : Nat) : VerifyMfaResponse × List ServerUser :=
  match db.find? (fun u => u.id == userId) with
  | none => (.userNotFound, db)
  | some u =>
    (.mfaVerified
      { userId := u.id, email := none, role := u.role, expiresIn := "7d" }
      u.id u.fullName,
     updateFirst (fun v => v.id == userId) (fun v => { v with lastLogin := some now }) db)

/-- Responses of `GET /api/auth/verify-email/:token`
(auth routes, lines 365-417). -/
inductive VerifyEmailResponse
  | tokenRequired
  | invalidOrExpired
  | emailVerifiedOk (id : String) (email : String)
deriving DecidableEq

/-- Does `u` match `findOne({emailVerificationToken: token,
emailVerificationExpiry: {$gt: now}})`?  A `null` expiry never satisfies
`$gt`. -/
def tokenMatches (token : String) (now : Nat) (u : ServerUser) : Bool :=
  u.emailVerificationToken == some token &&
  (match u.emailVerificationExpiry with
   | some e => decide (now < e)
   | none => false)

/-- The success-path mutation of the email-verification route (auth
routes, lines 389-393): set the verified flag and clear the token and its
expiry. -/
def clearVerification (u : ServerUser) : ServerUser :=
  { u with emailVerified := true, emailVerificationToken := none,
           emailVerificationExpiry := none }

/-- `GET /api/auth/verify-email/:token` (auth routes, lines 365-417): an
empty token is rejected; otherwise the first user holding the token
unexpired is marked verified and the token and expiry are cleared (single
use); no match means invalid-or-expired. -/
def verifyEmailHandler (now : Nat) (db : List ServerUser) (token : String) :
    VerifyEmailResponse × List ServerUser :=
  if token == "" then (.tokenRequired, db)
  else
    match db.find? (tokenMatches token now) with
    | none => (.invalidOrExpired, db)
    | some u =>
      (.emailVerifiedOk u.id u.officialEmail,
       updateFirst (tokenMatches token now) clearVerification db)

/-- A registration request body as read by the validator middleware;
absent fields are `none`, and a JS falsy check `!x` on a string field
holds for an absent field and for the empty string. -/
structure RegisterBody where
  fullName : Option String := none
  email : Option String := none
  mobile : Option String := none
  serviceId : Option String := none
  role : Option String := none
  password : Option String := none

/-- JS truthiness failure of an optional string: `!x`. -/
def jsFalsy : Option String → Bool
  | none => true
  | some s => s == ""

/-- `validRoles` of `validateRegistration`
(server/middleware/validator.js line 36). -/
def validRoles : List String :=
  ["personnel", "family", "veteran", "cert", "admin"]

/-- `validateRegistration` (server/middleware/validator.js lines 6-69),
returning the accumulated error list (the middleware rejects the request
with status 400 exactly when this list is non-empty).  `isEmail` is the
`validator` npm package's email check, passed in as a capability. -/
def validateRegistrationErrors (isEmail : String → Bool) (b : RegisterBody) :
    List String :=
  let fullNameErrors :=
    if jsFalsy b.fullName || (jsTrim (b.fullName.getD "")).length < 2 then
      ["Full name must be at least 2 characters"]
    else []
  let emailErrors :=
    if jsFalsy b.email || !isEmail (b.email.getD "") then
      ["Valid email address required"]
    else []
  let cleanMobile :=
    match b.mobile with
    | none => ""
    | some m => if m == "" then "" else String.mk (m.data.filter isAsciiDigitB)
  let mobileErrors :=
    if cleanMobile == "" || cleanMobile.length < 10 || 15 < cleanMobile.length then
      ["Valid mobile number required (10-15 digits)"]
    else []
  let serviceIdErrors :=
    if jsFalsy b.serviceId || (jsTrim (b.serviceId.getD "")).length < 3 then
      ["Valid service/credential ID required"]
    else []
  let roleErrors :=
    if jsFalsy b.role || !validRoles.contains (b.role.getD "") then
      ["Role must be one of: personnel, family, veteran, cert, admin"]
    else []
  let passwordErrors :=
    if jsFalsy b.password || (b.password.getD "").length < 12 then
      ["Password must be at least 12 characters"]
    else
      (if !(b.password.getD "").data.any isUpperAlphaB then
        ["Password must contain at least one uppercase letter"] else []) ++
      (if !(b.password.getD "").data.any isAsciiDigitB then
        ["Password must contain at least one number"] else []) ++
      (if !(b.password.getD "").data.any (fun c => !isAlnumB c) then
        ["Password must contain at least one special character"] else [])
  fullNameErrors ++ emailErrors ++ mobileErrors ++ serviceIdErrors ++
    roleErrors ++ passwordErrors

/-! ## Spec-side predicates (for refinement statements) -/

/-- The spec's baseline password rule, as worded: "minimum 12 characters,
one uppercase, one digit, one symbol" (a non-alphanumeric character). -/
def specBaselinePassword (p : String) : Bool :=
  decide (12 ≤ p.data.length) && p.data.any isUpperAlphaB &&
  p.data.any isAsciiDigitB && p.data.any (fun c => !isAlnumB c)

/-- The spec's reading of a role's own password rule: satisfied when the
role has no `passwordPolicy`, and otherwise when the password meets the
policy's minimum length and (if required) contains a special character. -/
def specRolePasswordRule (config : RoleConfig) (p : String) : Bool :=
  match config.passwordPolicy with
  | none => true
  | some pol =>
    decide (pol.minLength ≤ p.length) &&
    (!pol.requireSpecialCharacter || p.data.any loginSpecialChar)

/-- Countdown evolution of one interval firing, on the counter alone. -/
def tickNat (k : Nat) : Nat := if k ≤ 1 then 0 else k - 1

/-- A sample account holding a pending email-verification token `tok123`
that expires at time 1000. -/
def sampleTokenUser : ServerUser :=
  { id := "u2", fullName := "Raj Singh", officialEmail := "raj@navy.mil.in",
    mobileNumber := "9876500000", credentialId := "NAVY123456",
    role := "personnel", passwordHash := "hash2", authMethod := "email",
    emailVerificationToken := some "tok123",
    emailVerificationExpiry := some 1000 }

/-- A sample activated, email-verified account with the authenticator MFA
method and a stored TOTP secret. -/
def sampleAuthUser : ServerUser :=
  { id := "u1", fullName := "Jane Doe", officialEmail := "jane@army.mil.in",
    mobileNumber := "9876543210", credentialId := "ARMY123456",
    role := "personnel", passwordHash := "hash1",
    authMethod := "authenticator", totpSecret := some "JBSWY3DPEHPK3PXP",
    isActivated := true, emailVerified := true }

/-! ## Helper lemmas: JS string primitives -/

theorem data_mk (l : List Char) : (String.mk l).data = l := rfl

theorem char_toNat_ofNat_of_valid {n : Nat} (h : n.isValidChar) :
    (Char.ofNat n).toNat = n := by
  simp [Char.ofNat, h, Char.ofNatAux, Char.toNat, UInt32.toNat]

theorem isJsWs_jsToLower (c : Char) : isJsWs (jsToLower c) = isJsWs c := by
  unfold jsToLower
  split
  case isTrue h =>
    have hv : (c.toNat + 32).isValidChar := Or.inl (by omega)
    have ht : (Char.ofNat (c.toNat + 32)).toNat = c.toNat + 32 :=
      char_toNat_ofNat_of_valid hv
    have e1 : isJsWs (Char.ofNat (c.toNat + 32)) = false := by
      simp only [isJsWs, ht, decide_eq_false_iff_not]
      omega
    have e2 : isJsWs c = false := by
      simp only [isJsWs, decide_eq_false_iff_not]
      omega
    rw [e1, e2]
  case isFalse h => rfl

theorem isJsWs_jsToUpper (c : Char) : isJsWs (jsToUpper c) = isJsWs c := by
  unfold jsToUpper
  split
  case isTrue h =>
    have hv : (c.toNat - 32).isValidChar := Or.inl (by omega)
    have ht : (Char.ofNat (c.toNat - 32)).toNat = c.toNat - 32 :=
      char_toNat_ofNat_of_valid hv
    have e1 : isJsWs (Char.ofNat (c.toNat - 32)) = false := by
      simp only [isJsWs, ht, decide_eq_false_iff_not]
      omega
    have e2 : isJsWs c = false := by
      simp only [isJsWs, decide_eq_false_iff_not]
      omega
    rw [e1, e2]
  case isFalse h => rfl

theorem jsToLower_jsToLower (c : Char) : jsToLower (jsToLower c) = jsToLower c := by
  unfold jsToLower
  split
  case isTrue h =>
    have hv : (c.toNat + 32).isValidChar := Or.inl (by omega)
    have ht : (Char.ofNat (c.toNat + 32)).toNat = c.toNat + 32 :=
      char_toNat_ofNat_of_valid hv
    rw [if_neg]
    omega
  case isFalse h =>
    rfl

theorem jsToUpper_jsToUpper (c : Char) : jsToUpper (jsToUpper c) = jsToUpper c := by
  unfold jsToUpper
  split
  case isTrue h =>
    have hv : (c.toNat - 32).isValidChar := Or.inl (by omega)
    have ht : (Char.ofNat (c.toNat - 32)).toNat = c.toNat - 32 :=
      char_toNat_ofNat_of_valid hv
    rw [if_neg]
    omega
  case isFalse h =>
    rfl

theorem dropWhile_dropWhile (p : Char → Bool) (l : List Char) :
    (l.dropWhile p).dropWhile p = l.dropWhile p := by
  induction l with
  | nil => rfl
  | cons x xs ih =>
    rw [List.dropWhile_cons]
    split
    · exact ih
    · next h => rw [List.dropWhile_cons, if_neg h]

theorem head_dropWhile_false (p : Char → Bool) (l : List Char) :
    ∀ x, (l.dropWhile p).head? = some x → p x = false := by
  induction l with
  | nil => intro x hx; simp at hx
  | cons a t ih =>
    intro x hx
    rw [List.dropWhile_cons] at hx
    by_cases hpa : p a = true
    · exact ih x (by rwa [if_pos hpa] at hx)
    · rw [if_neg hpa] at hx
      simp at hx
      subst hx
      simpa using hpa

theorem dropWhile_eq_self_of_head (p : Char → Bool) (l : List Char)
    (h : ∀ x, l.head? = some x → p x = false) : l.dropWhile p = l := by
  cases l with
  | nil => rfl
  | cons a t =>
    rw [List.dropWhile_cons, if_neg]
    simp [h a rfl]

theorem head_trimEndList (l : List Char) (x : Char)
    (h : (trimEndList l).head? = some x) : l.head? = some x := by
  obtain ⟨u, hu⟩ := List.dropWhile_suffix (l := l.reverse) isJsWs
  have ht : trimEndList l ++ u.reverse = l := by
    have := congrArg List.reverse hu
    simpa [trimEndList] using this
  cases hte : trimEndList l with
  | nil => rw [hte] at h; simp at h
  | cons a as =>
    rw [hte] at h ht
    simp at h
    rw [← ht, ← h]
    rfl

theorem jsTrimList_idem (l : List Char) :
    jsTrimList (jsTrimList l) = jsTrimList l := by
  unfold jsTrimList
  have h1 : (trimEndList (l.dropWhile isJsWs)).dropWhile isJsWs =
      trimEndList (l.dropWhile isJsWs) := by
    apply dropWhile_eq_self_of_head
    intro x hx
    exact head_dropWhile_false isJsWs l x
      (head_trimEndList (l.dropWhile isJsWs) x hx)
  rw [h1]
  unfold trimEndList
  rw [List.reverse_reverse, dropWhile_dropWhile]

theorem jsTrimList_map (f : Char → Char) (hf : ∀ c, isJsWs (f c) = isJsWs c)
    (l : List Char) : jsTrimList (l.map f) = (jsTrimList l).map f := by
  have hcomp : (isJsWs ∘ f) = isJsWs := funext hf
  have hdw : ∀ m : List Char,
      (m.map f).dropWhile isJsWs = (m.dropWhile isJsWs).map f := by
    intro m
    rw [List.dropWhile_map, hcomp]
  unfold jsTrimList trimEndList
  rw [hdw, ← List.map_reverse, hdw, List.map_reverse]

theorem map_idem (f : Char → Char) (hf : ∀ a, f (f a) = f a) (l : List Char) :
    (l.map f).map f = l.map f := by
  induction l with
  | nil => rfl
  | cons a t ih => simp only [List.map_cons, hf, ih]

theorem dropWhile_eq_self_of_all (p : Char → Bool) (l : List Char)
    (h : ∀ x ∈ l, p x = false) : l.dropWhile p = l := by
  cases l with
  | nil => rfl
  | cons a t =>
    rw [List.dropWhile_cons, if_neg]
    simp [h a (List.mem_cons_self a t)]

theorem jsTrimList_of_wsFree (l : List Char) (h : ∀ c ∈ l, isJsWs c = false) :
    jsTrimList l = l := by
  unfold jsTrimList trimEndList
  rw [dropWhile_eq_self_of_all _ _ h,
      dropWhile_eq_self_of_all _ _ (fun x hx => h x (List.mem_reverse.mp hx)),
      List.reverse_reverse]

theorem mem_of_mem_jsTrimList {a : Char} {l : List Char}
    (h : a ∈ jsTrimList l) : a ∈ l := by
  unfold jsTrimList trimEndList at h
  rw [List.mem_reverse] at h
  have h1 := (List.dropWhile_sublist (l := (l.dropWhile isJsWs).reverse) isJsWs).mem h
  rw [List.mem_reverse] at h1
  exact (List.dropWhile_sublist isJsWs).mem h1

/-- Helper: `computeNormalizedId` is idempotent (shared by the lockout
development, whose repeated submissions re-normalize already-normalized
identities). -/
theorem normalizeId_idem (value : String) (config : Option RoleConfig) :
    computeNormalizedId (computeNormalizedId value config) config =
      computeNormalizedId value config := by
  match config with
  | none =>
    simp only [computeNormalizedId, data_mk, jsTrimList_idem]
  | some c =>
    by_cases he : c.inputType = some InputType.email
    · simp only [computeNormalizedId, if_pos he, data_mk]
      rw [jsTrimList_map jsToLower isJsWs_jsToLower, jsTrimList_idem,
          map_idem jsToLower jsToLower_jsToLower]
    · by_cases hu : c.enforceUppercase = some false
      · simp only [computeNormalizedId, if_neg he, if_pos hu, data_mk]
        have hfree : ∀ x ∈ jsTrimList (value.data.filter (fun ch => !isJsWs ch)),
            isJsWs x = false := by
          intro x hx
          have := mem_of_mem_jsTrimList hx
          simp only [List.mem_filter, Bool.not_eq_eq_eq_not, Bool.not_true] at this
          exact this.2
        have hfilter :
            (jsTrimList (value.data.filter (fun ch => !isJsWs ch))).filter
              (fun ch => !isJsWs ch) =
            jsTrimList (value.data.filter (fun ch => !isJsWs ch)) := by
          apply List.filter_eq_self.mpr
          intro a ha
          simp [hfree a ha]
        rw [hfilter, jsTrimList_idem]
      · simp only [computeNormalizedId, if_neg he, if_neg hu, data_mk]
        have hfree2 : ∀ x ∈ (value.data.filter (fun ch => !isJsWs ch)).map jsToUpper,
            isJsWs x = false := by
          intro x hx
          rw [List.mem_map] at hx
          obtain ⟨y, hy, hxy⟩ := hx
          rw [List.mem_filter] at hy
          have hyw : isJsWs y = false := by
            have := hy.2
            simpa using this
          rw [← hxy, isJsWs_jsToUpper, hyw]
        have hfilter2 :
            ((value.data.filter (fun ch => !isJsWs ch)).map jsToUpper).filter
              (fun ch => !isJsWs ch) =
            (value.data.filter (fun ch => !isJsWs ch)).map jsToUpper := by
          apply List.filter_eq_self.mpr
          intro a ha
          simp [hfree2 a ha]
        rw [hfilter2, map_idem jsToUpper jsToUpper_jsToUpper]

/-! ## C10: idempotence of identity normalization -/

/-- C10.  For every role policy (including an absent one, matching the
optional `config` parameter of the source) and every input string,
identity normalization is idempotent:
`computeNormalizedId (computeNormalizedId x config) config =
computeNormalizedId x config`. -/
theorem computeNormalizedId_idempotent (value : String) (config : Option RoleConfig) :
    computeNormalizedId (computeNormalizedId value config) config =
      computeNormalizedId value config :=
  normalizeId_idem value config

/-! ## C7: registration outcome fork -/

/-- C7.  A registration submission (eligibility terms accepted) with email
`jane@army.mil.in` reaches the automated `Verified` outcome, while one
with `jane@gmail.com` reaches `PendingManualReview`; in both flows — in
particular in the pending-manual-review case — the handler performs no
backend call, so no email-verification token is issued.  (The fork
depends only on the email; the submitted role, `personnel` in the claim,
does not enter `handleSubmit`.) -/
theorem registration_fork_and_no_token :
    handleSubmitReg true "jane@army.mil.in" = (.verified, []) ∧
    handleSubmitReg true "jane@gmail.com" = (.pendingManualReview, []) := by
  constructor <;> decide

/-! ## C1: the verify-MFA endpoint ignores the code -/

/-- C1 (the claim is violated by the code).  For every submitted `code`
and `method` — including codes that are invalid for the account's stored
secret, such as `"000000"` or a non-numeric string — `verify-mfa` issues
the session JWT: the endpoint never consults `verifyTotpToken`, any OTP
challenge, or the `validateMfaVerification` middleware. -/
theorem verifyMfa_issues_session_for_any_code (code method : String) (now : Nat) :
    verifyMfaHandler [sampleAuthUser] "u1" code method now =
      (.mfaVerified
        { userId := "u1", email := none, role := "personnel", expiresIn := "7d" }
        "u1" "Jane Doe",
       [{ sampleAuthUser with lastLogin := some now }]) := by
  rfl

/-! ## C3: the login success response carries the stored TOTP secret -/

/-- C3.  For every account whose MFA method is `authenticator`, the login
endpoint's success response — issued after password verification only, no
MFA code having been checked — includes the account's stored TOTP secret
in the returned `user` object (auth routes line 216). -/
theorem login_success_returns_totp_secret
    (bcryptCompare : String → String → Bool) (db : List ServerUser)
    (identifier password role : String) (u : ServerUser)
    (hid : (identifier == "") = false) (hpw : (password == "") = false)
    (hrole : (role == "") = false)
    (hfind : db.find? (fun v =>
        (v.officialEmail == jsLower identifier ||
         v.credentialId == jsUpper identifier) && v.role == role) = some u)
    (hcmp : bcryptCompare password u.passwordHash = true)
    (hact : u.isActivated = true) (hver : u.emailVerified = true)
    (hauth : u.authMethod = "authenticator") :
    loginHandler bcryptCompare db identifier password role =
      .loginOk { id := u.id, email := u.officialEmail, role := u.role,
                 mfaEnabled := true, mfaMethod := u.authMethod,
                 totpSecret := u.totpSecret } := by
  unfold loginHandler
  rw [hid, hpw, hrole]
  simp only [Bool.or_self, Bool.false_or, if_false, hfind]
  simp [hcmp, hact, hver, hauth]

/-- Witness for C3: a concrete database and bcrypt capability; the
response for the sample authenticator account exposes the stored secret
`JBSWY3DPEHPK3PXP`. -/
theorem login_success_returns_totp_secret_witness :
    loginHandler (fun _ h => h == "hash1") [sampleAuthUser]
        "jane@army.mil.in" "Password123!" "personnel" =
      .loginOk { id := "u1", email := "jane@army.mil.in", role := "personnel",
                 mfaEnabled := true, mfaMethod := "authenticator",
                 totpSecret := some "JBSWY3DPEHPK3PXP" } :=
  login_success_returns_totp_secret (fun _ h => h == "hash1") [sampleAuthUser]
    "jane@army.mil.in" "Password123!" "personnel" sampleAuthUser
    (by decide) (by decide) (by decide) (by decide) (by decide)
    (by decide) (by decide) (by decide)

/-! ## C9: server-side role acceptance -/

/-- C9.  The server's registration validator accepts only the roles
`personnel`, `family`, `veteran`, `cert`, `admin`: a body passing
validation carries one of those five roles.  `commander` and `auditor` are
defined in the client role registry and offered by the forms
(`roleOptionValues`) yet are outside the validator's `validRoles` and the
user schema's `role` enum, so a registration with either role fails with
the role validation error and no such account can be stored. -/
theorem server_accepts_only_five_roles :
    (∀ (isEmail : String → Bool) (b : RegisterBody),
      validateRegistrationErrors isEmail b = [] →
      b.role = some "personnel" ∨ b.role = some "family" ∨
      b.role = some "veteran" ∨ b.role = some "cert" ∨ b.role = some "admin") ∧
    "commander" ∈ roleOptionValues ∧ "auditor" ∈ roleOptionValues ∧
    "commander" ∉ validRoles ∧ "auditor" ∉ validRoles ∧
    "commander" ∉ userRoleEnum ∧ "auditor" ∉ userRoleEnum ∧
    (∀ (isEmail : String → Bool) (b : RegisterBody),
      b.role = some "commander" ∨ b.role = some "auditor" →
      "Role must be one of: personnel, family, veteran, cert, admin" ∈
        validateRegistrationErrors isEmail b) := by
  refine ⟨?_, by decide, by decide, by decide, by decide, by decide, by decide, ?_⟩
  · intro isEmail b h
    unfold validateRegistrationErrors at h
    simp only [List.append_eq_nil] at h
    have hrole := h.1.2
    by_cases hcond : (jsFalsy b.role ||
        !validRoles.contains (b.role.getD "")) = true
    · rw [if_pos hcond] at hrole
      exact absurd hrole (by simp)
    · have hcond2 := hcond
      simp only [Bool.or_eq_true, not_or, Bool.not_eq_true] at hcond2
      obtain ⟨hfal, hcont⟩ := hcond2
      match hb : b.role with
      | none => rw [hb] at hfal; exact absurd hfal (by simp [jsFalsy])
      | some r =>
        rw [hb] at hcont
        simp only [Option.getD_some] at hcont
        have hmem : r ∈ validRoles := by simpa using hcont
        simp only [validRoles, List.mem_cons, List.not_mem_nil, or_false] at hmem
        rcases hmem with h1 | h1 | h1 | h1 | h1 <;> subst h1 <;> simp
  · intro isEmail b hb
    unfold validateRegistrationErrors
    have hr : (if jsFalsy b.role ||
        !validRoles.contains (b.role.getD "") then
        ["Role must be one of: personnel, family, veteran, cert, admin"]
        else []) =
        ["Role must be one of: personnel, family, veteran, cert, admin"] := by
      rcases hb with hb | hb <;> rw [hb] <;> decide
    simp only [List.mem_append]
    left
    right
    rw [hr]
    exact List.mem_singleton.mpr rfl

/-- Witness for C9: a concrete registration body with role `personnel`
passes validation, and the theorem then places its role among the five
accepted roles. -/
theorem server_accepts_only_five_roles_witness :
    ((some "personnel" : Option String) = some "personnel" ∨
     (some "personnel" : Option String) = some "family" ∨
     (some "personnel" : Option String) = some "veteran" ∨
     (some "personnel" : Option String) = some "cert" ∨
     (some "personnel" : Option String) = some "admin") :=
  server_accepts_only_five_roles.1 (fun _ => true)
    { fullName := some "Jane Doe", email := some "jane@army.mil.in",
      mobile := some "9876543210", serviceId := some "ARMY123456",
      role := some "personnel", password := some "Password123!" }
    (by decide)

/-! ## C4: OTP expiry takes precedence over code comparison -/

theorem otpTick_eq (s : OtpHookState) :
    otpTick s = { s with otpCountdown := tickNat s.otpCountdown } := by
  by_cases h : s.otpCountdown ≤ 1 <;> simp [otpTick, tickNat, h]

theorem otpTick_iterate (n : Nat) (s : OtpHookState) :
    otpTick^[n] s = { s with otpCountdown := tickNat^[n] s.otpCountdown } := by
  induction n generalizing s with
  | zero => rfl
  | succ n ih =>
    rw [Function.iterate_succ_apply, Function.iterate_succ_apply, ih, otpTick_eq]

theorem sanitize_of_valid_format (code : String)
    (h : isValidOtpFormat code = true) : sanitizeOtpInput code = code := by
  unfold isValidOtpFormat at h
  simp only [Bool.and_eq_true, beq_iff_eq] at h
  obtain ⟨hlen, hall⟩ := h
  unfold sanitizeOtpInput
  rw [List.filter_eq_self.mpr (by
    intro a ha
    exact (List.all_eq_true.mp hall) a ha)]
  rw [← hlen, List.take_length]

set_option maxRecDepth 4000 in
/-- C4.  For a delivered-method OTP challenge issued with the 60-second
window (the hook's default `OTP_EXPIRY_SECONDS`), verification at T+59s
with the correct — indeed with any well-formed six-digit — code succeeds,
while verification at T+61s fails with the distinct expiry error "OTP has
expired. Please request a new one." rather than the code error "Please
enter a valid 6-digit code.", even though the submitted code is unchanged:
the expiry check runs before the code is examined. -/
theorem otp_expiry_precedes_code_check (code : String) (s0 : OtpHookState)
    (hfmt : isValidOtpFormat code = true) :
    (verifyOtpHook (otpTick^[59]
        (setOtpCodeHook code
          (sendOtpHook OTP_EXPIRY_SECONDS "user@example.com" s0).1))).1 = true ∧
    (verifyOtpHook (otpTick^[61]
        (setOtpCodeHook code
          (sendOtpHook OTP_EXPIRY_SECONDS "user@example.com" s0).1))) =
      (false, { otpTick^[61]
          (setOtpCodeHook code
            (sendOtpHook OTP_EXPIRY_SECONDS "user@example.com" s0).1) with
        otpError := "OTP has expired. Please request a new one." }) ∧
    ("OTP has expired. Please request a new one." ≠
      "Please enter a valid 6-digit code.") := by
  have hsend : (sendOtpHook OTP_EXPIRY_SECONDS "user@example.com" s0).1 =
      { s0 with otpError := "", otpCode := "", otpSent := true,
                otpCountdown := 60 } := by
    unfold sendOtpHook
    rw [if_neg (by decide)]
    rfl
  have hset : setOtpCodeHook code
      (sendOtpHook OTP_EXPIRY_SECONDS "user@example.com" s0).1 =
      { s0 with otpError := "", otpCode := code, otpSent := true,
                otpCountdown := 60 } := by
    rw [hsend]
    unfold setOtpCodeHook
    simp [sanitize_of_valid_format code hfmt]
  refine ⟨?_, ?_, by decide⟩
  · rw [hset, otpTick_iterate]
    have h59 : tickNat^[59] 60 = 1 := rfl
    unfold verifyOtpHook
    simp [h59, hfmt]
  · rw [hset, otpTick_iterate]
    have h61 : tickNat^[61] 60 = 0 := rfl
    unfold verifyOtpHook
    simp [h61]

set_option maxRecDepth 4000 in
/-- Witness for C4 at the concrete code `123456` and the initial hook
state. -/
theorem otp_expiry_precedes_code_check_witness :
    (verifyOtpHook (otpTick^[59]
        (setOtpCodeHook "123456"
          (sendOtpHook OTP_EXPIRY_SECONDS "user@example.com" {}).1))).1 = true ∧
    (verifyOtpHook (otpTick^[61]
        (setOtpCodeHook "123456"
          (sendOtpHook OTP_EXPIRY_SECONDS "user@example.com" {}).1))) =
      (false, { otpTick^[61]
          (setOtpCodeHook "123456"
            (sendOtpHook OTP_EXPIRY_SECONDS "user@example.com" {}).1) with
        otpError := "OTP has expired. Please request a new one." }) ∧
    ("OTP has expired. Please request a new one." ≠
      "Please enter a valid 6-digit code.") :=
  otp_expiry_precedes_code_check "123456" {} (by decide)

/-! ## C8: baseline and role password rules -/

/-- C8.  For every role and every password, a password accepted by the
login form's password-policy block satisfies the spec's baseline rule
(at least 12 characters with an uppercase letter, a digit, and a
non-alphanumeric symbol) and the role's own password policy when one
exists; contrapositively, a password failing the baseline is rejected for
every role, including roles with no role-specific policy, and when the
role policy is stricter it additionally governs. -/
theorem passwordValidation_baseline_and_role (r : RoleKey) (p : String)
    (h : clientPasswordCheck (roleConfigurations r) p = none) :
    specBaselinePassword p = true ∧
    specRolePasswordRule (roleConfigurations r) p = true := by
  unfold clientPasswordCheck at h
  by_cases hreg : passwordPolicyRegexTest p = true
  · rw [hreg] at h
    simp only [Bool.not_true, Bool.false_eq_true, if_false] at h
    constructor
    · unfold passwordPolicyRegexTest at hreg
      simp only [Bool.and_eq_true, decide_eq_true_eq] at hreg
      unfold specBaselinePassword
      simp only [Bool.and_eq_true, decide_eq_true_eq]
      exact ⟨⟨⟨hreg.1.1.1.2, hreg.1.1.2⟩, hreg.1.2⟩, hreg.2⟩
    · unfold specRolePasswordRule
      match hpol : (roleConfigurations r).passwordPolicy with
      | none => rfl
      | some pol =>
        rw [hpol] at h
        have h2 : (if (decide (p.length < pol.minLength) ||
            (pol.requireSpecialCharacter && !p.data.any loginSpecialChar)) = true then
            some pol.message else none) = none := h
        show (decide (pol.minLength ≤ p.length) &&
          (!pol.requireSpecialCharacter || p.data.any loginSpecialChar)) = true
        by_cases hc : (decide (p.length < pol.minLength) ||
            (pol.requireSpecialCharacter && !p.data.any loginSpecialChar)) = true
        · rw [if_pos hc] at h2
          exact absurd h2 (by simp)
        · simp only [Bool.or_eq_true, Bool.and_eq_true, decide_eq_true_eq,
            not_or, not_and, Bool.not_eq_true] at hc
          simp only [Bool.and_eq_true, Bool.or_eq_true, decide_eq_true_eq,
            Bool.not_eq_true]
          constructor
          · omega
          · by_cases hrs : pol.requireSpecialCharacter = true
            · right
              have := hc.2 hrs
              simpa using this
            · left
              simpa using hrs
  · rw [Bool.not_eq_true] at hreg
    rw [hreg] at h
    simp at h

/-- Witness for C8: the admin role (the one role with its own
`passwordPolicy`) accepts `Password123!`, which therefore satisfies both
the baseline and the role rule. -/
theorem passwordValidation_baseline_and_role_witness :
    specBaselinePassword "Password123!" = true ∧
    specRolePasswordRule (roleConfigurations .admin) "Password123!" = true :=
  passwordValidation_baseline_and_role .admin "Password123!" (by decide)

/-! ## C6: an enforced authenticator method cannot be switched to SMS -/

theorem applyMfaMethodRequests_enforced (r : RoleKey)
    (henf : (roleConfigurations r).enforcedMfaMethod = some .totp)
    (reqs : List String) :
    ∀ s : LoginFormState, s.userType = some r → s.mfaMethod = .totp →
      (applyMfaMethodRequests s reqs).userType = some r ∧
      (applyMfaMethodRequests s reqs).mfaMethod = .totp := by
  induction reqs with
  | nil => exact fun s h1 h2 => ⟨h1, h2⟩
  | cons v vs ih =>
    intro s h1 h2
    have hmap : s.userType.map roleConfigurations = some (roleConfigurations r) := by
      rw [h1]; rfl
    have hstep : handleMfaMethodChange s v = { s with mfaMethod := .totp } := by
      unfold handleMfaMethodChange
      rw [hmap]
      show (match (roleConfigurations r).enforcedMfaMethod with
            | some m => { s with mfaMethod := m }
            | none => handleMfaMethodChangeFree s v) =
          { s with mfaMethod := MfaMethod.totp }
      rw [henf]
    exact ih (handleMfaMethodChange s v) (by rw [hstep]; exact h1) (by rw [hstep])

/-- C6.  For every role whose policy fixes the authenticator (TOTP) MFA
method: after selecting the role, any sequence of MFA-method selections —
in particular a selection of the delivered-code ("sms") method — leaves
the method at `totp` (`handleMfaMethodChange` overrides the request), and
an MFA verification submission from any such state never enters the
delivered-code branch (its outcome is the authenticator-path
`authSuccess`/`invalidOtp`, never `phoneRequired`, `otpNotSent`, or
`otpExpired`), independently of the submitted code. -/
theorem enforcedTotp_rejects_sms_selection (r : RoleKey)
    (henf : (roleConfigurations r).enforcedMfaMethod = some .totp)
    (s : LoginFormState) (reqs : List String) :
    (applyMfaMethodRequests (handleRoleChange s r) reqs).mfaMethod = .totp ∧
    ((handleMFAVerify (applyMfaMethodRequests (handleRoleChange s r) reqs)).2 =
        .authSuccess ∨
     (handleMFAVerify (applyMfaMethodRequests (handleRoleChange s r) reqs)).2 =
        .invalidOtp) := by
  have h0 : (handleRoleChange s r).userType = some r := rfl
  have h1 : (handleRoleChange s r).mfaMethod = .totp := by
    unfold handleRoleChange
    simp [henf]
  obtain ⟨hu, hm⟩ :=
    applyMfaMethodRequests_enforced r henf reqs (handleRoleChange s r) h0 h1
  refine ⟨hm, ?_⟩
  unfold handleMFAVerify
  rw [hm]
  simp only [show ((MfaMethod.totp == MfaMethod.sms) = false) from rfl,
    Bool.false_and, Bool.false_eq_true, if_false]
  by_cases hc :
      ((applyMfaMethodRequests (handleRoleChange s r) reqs).otpCode.length == 6) = true
  · rw [if_pos hc]; exact Or.inl rfl
  · rw [if_neg hc]; exact Or.inr rfl

/-- Witness for C6: the CERT analyst role (policy `enforcedMfaMethod:
"totp"`), with an explicit "sms" selection after role choice, stays on
`totp` and the verification outcome is on the authenticator path. -/
theorem enforcedTotp_rejects_sms_selection_witness :
    (applyMfaMethodRequests (handleRoleChange {} .cert) ["sms"]).mfaMethod = .totp ∧
    ((handleMFAVerify (applyMfaMethodRequests (handleRoleChange {} .cert) ["sms"])).2 =
        .authSuccess ∨
     (handleMFAVerify (applyMfaMethodRequests (handleRoleChange {} .cert) ["sms"])).2 =
        .invalidOtp) :=
  enforcedTotp_rejects_sms_selection .cert (by decide) {} ["sms"]

/-! ## C5: email-verification tokens are single use -/

theorem updateFirst_mem_of_find (p : ServerUser → Bool) (f : ServerUser → ServerUser) :
    ∀ (db : List ServerUser) (u : ServerUser), db.find? p = some u →
      f u ∈ updateFirst p f db := by
  intro db
  induction db with
  | nil => intro u h; simp at h
  | cons a t ih =>
    intro u h
    rw [List.find?_cons] at h
    by_cases hpa : p a = true
    · rw [hpa] at h
      simp only [Option.some.injEq] at h
      subst h
      unfold updateFirst
      rw [if_pos hpa]
      exact List.mem_cons_self _ _
    · rw [Bool.not_eq_true] at hpa
      rw [hpa] at h
      unfold updateFirst
      rw [if_neg (by simp [hpa])]
      exact List.mem_cons_of_mem _ (ih u h)

theorem updateFirst_clears (token : String) (now : Nat) :
    ∀ db : List ServerUser,
      (db.filter (fun u => u.emailVerificationToken == some token)).length ≤ 1 →
      (db.find? (tokenMatches token now)).isSome = true →
      ∀ v ∈ updateFirst (tokenMatches token now) clearVerification db,
        (v.emailVerificationToken == some token) = false := by
  intro db
  induction db with
  | nil => intro _ _ v hv; simp [updateFirst] at hv
  | cons a t ih =>
    intro huniq hfind v hv
    by_cases hpa : tokenMatches token now a = true
    · unfold updateFirst at hv
      rw [if_pos hpa] at hv
      rcases List.mem_cons.mp hv with hv | hv
      · subst hv
        simp [clearVerification]
      · have hatok : (a.emailVerificationToken == some token) = true := by
          have h' := hpa
          unfold tokenMatches at h'
          rw [Bool.and_eq_true] at h'
          exact h'.1
        have hfe : t.filter (fun u => u.emailVerificationToken == some token) = [] := by
          have hcons : (a :: t).filter (fun u => u.emailVerificationToken == some token) =
              a :: t.filter (fun u => u.emailVerificationToken == some token) :=
            List.filter_cons_of_pos hatok
          rw [hcons, List.length_cons] at huniq
          have hlen : (t.filter (fun u => u.emailVerificationToken == some token)).length = 0 := by
            omega
          exact List.length_eq_zero.mp hlen
        have := List.filter_eq_nil_iff.mp hfe v hv
        simpa using this
    · unfold updateFirst at hv
      rw [if_neg hpa] at hv
      have hpa2 : tokenMatches token now a = false := by
        exact Bool.not_eq_true _ ▸ (by simpa using hpa)
      rcases List.mem_cons.mp hv with hv | hv
      · subst hv
        by_cases hatok : (v.emailVerificationToken == some token) = true
        · exfalso
          have hft : (t.find? (tokenMatches token now)).isSome = true := by
            rw [List.find?_cons, hpa2] at hfind
            exact hfind
          obtain ⟨u, hu⟩ := Option.isSome_iff_exists.mp hft
          have hu1 : u ∈ t := List.mem_of_find?_eq_some hu
          have hu2 : tokenMatches token now u = true := List.find?_some hu
          have hutok : (u.emailVerificationToken == some token) = true := by
            have h' := hu2
            unfold tokenMatches at h'
            rw [Bool.and_eq_true] at h'
            exact h'.1
          have hmemf : u ∈ t.filter (fun u => u.emailVerificationToken == some token) :=
            List.mem_filter.mpr ⟨hu1, hutok⟩
          have hcons : (v :: t).filter (fun u => u.emailVerificationToken == some token) =
              v :: t.filter (fun u => u.emailVerificationToken == some token) :=
            List.filter_cons_of_pos hatok
          rw [hcons, List.length_cons] at huniq
          have := List.length_pos_of_mem hmemf
          omega
        · simpa using hatok
      · apply ih ?_ ?_ v hv
        · calc (t.filter (fun u => u.emailVerificationToken == some token)).length
              ≤ ((a :: t).filter (fun u => u.emailVerificationToken == some token)).length := by
                rw [List.filter_cons]
                split
                · simp
                · exact Nat.le_refl _
            _ ≤ 1 := huniq
        · rw [List.find?_cons, hpa2] at hfind
          exact hfind

/-- C5.  For every database in which at most one account holds a given
verification token (tokens are generated per account): a successful
consumption marks that account's email verified and clears the token, and
afterwards the same token value is rejected with invalid-or-expired at
every later (indeed every) time; moreover a consumption attempted when
every holder of the token is past its expiry returns invalid-or-expired —
a consumed or expired token never again authorizes verification. -/
theorem emailToken_single_use (now : Nat) (db : List ServerUser)
    (token uid em : String)
    (huniq : (db.filter (fun u => u.emailVerificationToken == some token)).length ≤ 1)
    (hsucc : (verifyEmailHandler now db token).1 = .emailVerifiedOk uid em) :
    (∃ u ∈ db, tokenMatches token now u = true ∧
       clearVerification u ∈ (verifyEmailHandler now db token).2) ∧
    (∀ now2 : Nat,
      (verifyEmailHandler now2 (verifyEmailHandler now db token).2 token).1 =
        .invalidOrExpired) ∧
    (∀ (db2 : List ServerUser) (now2 : Nat),
      (∀ u ∈ db2, u.emailVerificationToken = some token →
        ∃ e, u.emailVerificationExpiry = some e ∧ e ≤ now2) →
      (verifyEmailHandler now2 db2 token).1 = .invalidOrExpired) := by
  by_cases htok : (token == "") = true
  · unfold verifyEmailHandler at hsucc
    rw [if_pos htok] at hsucc
    simp at hsucc
  · have hneg : ¬((token == "") = true) := htok
    unfold verifyEmailHandler at hsucc
    rw [if_neg hneg] at hsucc
    cases hfind : db.find? (tokenMatches token now) with
    | none => rw [hfind] at hsucc; simp at hsucc
    | some u =>
      have hres : verifyEmailHandler now db token =
          (.emailVerifiedOk u.id u.officialEmail,
           updateFirst (tokenMatches token now) clearVerification db) := by
        unfold verifyEmailHandler
        rw [if_neg hneg, hfind]
      refine ⟨⟨u, List.mem_of_find?_eq_some hfind, List.find?_some hfind, ?_⟩, ?_, ?_⟩
      · rw [hres]
        exact updateFirst_mem_of_find _ _ db u hfind
      · intro now2
        have hclear := updateFirst_clears token now db huniq (by rw [hfind]; rfl)
        rw [hres]
        unfold verifyEmailHandler
        rw [if_neg hneg]
        have hnone : (updateFirst (tokenMatches token now) clearVerification db).find?
            (tokenMatches token now2) = none := by
          rw [List.find?_eq_none]
          intro x hx hm
          have hx2 := hclear x hx
          unfold tokenMatches at hm
          rw [Bool.and_eq_true] at hm
          rw [hm.1] at hx2
          exact Bool.true_eq_false ▸ hx2
        rw [hnone]
      · intro db2 now2 hexp
        unfold verifyEmailHandler
        rw [if_neg hneg]
        have hnone : db2.find? (tokenMatches token now2) = none := by
          rw [List.find?_eq_none]
          intro x hx hm
          unfold tokenMatches at hm
          rw [Bool.and_eq_true] at hm
          have hxt : x.emailVerificationToken = some token := by
            have := hm.1
            simpa using this
          obtain ⟨e, he, hle⟩ := hexp x hx hxt
          have := hm.2
          rw [he] at this
          simp only [decide_eq_true_eq] at this
          omega
        rw [hnone]

/-- Witness for C5: the sample token holder consumes `tok123` at time
500 (before its expiry 1000); replaying the same token against the
updated database at time 2000 is rejected. -/
theorem emailToken_single_use_witness :
    (verifyEmailHandler 2000
        (verifyEmailHandler 500 [sampleTokenUser] "tok123").2 "tok123").1 =
      .invalidOrExpired :=
  (emailToken_single_use 500 [sampleTokenUser] "tok123" "u2" "raj@navy.mil.in"
    (by decide) (by decide)).2.1 2000

/-! ## C2: three failures lock the account; a locked attempt skips the
password check -/

theorem jsTrimLower_idem (x : String) : jsTrimLower (jsTrimLower x) = jsTrimLower x := by
  unfold jsTrimLower
  simp only [data_mk]
  rw [jsTrimList_map jsToLower isJsWs_jsToLower, jsTrimList_idem,
      map_idem jsToLower jsToLower_jsToLower]

theorem jsTrim_jsTrimLower (x : String) : jsTrim (jsTrimLower x) = jsTrimLower x := by
  unfold jsTrim jsTrimLower
  simp only [data_mk]
  rw [jsTrimList_map jsToLower isJsWs_jsToLower, jsTrimList_idem]

theorem idPattern_empty (r : RoleKey) : (roleConfigurations r).idPattern "" = false := by
  cases r <;> decide

theorem validateEmailForRole_none_nonempty (v : String) (config : RoleConfig)
    (h : validateEmailForRole v config = none) : (jsTrimLower v == "") = false := by
  unfold validateEmailForRole at h
  by_cases hc : (jsTrimLower v == "") = true
  · rw [if_pos hc] at h
    exact absurd h (by simp)
  · simpa using hc

theorem attemptLogin_of_locked (s : LoginFormState) (b : Bool)
    (h : s.isLocked = true) : attemptLogin s b = (s, .accountLocked) := by
  unfold attemptLogin
  rw [if_pos h]

theorem handleLoginWithConfig_fail_eq (config : RoleConfig) (s : LoginFormState)
    (hv : validSubmissionWithConfig config s = true) :
    handleLoginWithConfig config s false =
      ({ s with
          serviceId := if showServiceIdFieldOf (some config) then
              computeNormalizedId s.serviceId (some config) else s.serviceId,
          serviceIdError := if showServiceIdFieldOf (some config) then ""
              else s.serviceIdError,
          email := if requiresEmailEntryOf (some config) then jsTrimLower s.email
              else s.email,
          emailError := if requiresEmailEntryOf (some config) then ""
              else s.emailError,
          passwordError := "",
          failedAttempts := s.failedAttempts + 1,
          isLocked := if 3 ≤ s.failedAttempts + 1 then true else s.isLocked },
       if 3 ≤ s.failedAttempts + 1 then LoginOutcome.accountLocked
       else LoginOutcome.loginFailed (3 - (s.failedAttempts + 1))) := by
  unfold validSubmissionWithConfig at hv
  simp only [Bool.and_eq_true] at hv
  obtain ⟨⟨⟨⟨⟨h1, h2⟩, h3⟩, h4⟩, h5⟩, h6⟩ := hv
  have h3' : (s.password == "") = false := by simpa using h3
  have h6' : clientPasswordCheck config s.password = none := by
    rwa [Option.isNone_iff_eq_none] at h6
  by_cases hshow : showServiceIdFieldOf (some config) = true <;>
  by_cases hreq : requiresEmailEntryOf (some config) = true
  · have h1' : (s.serviceId == "") = false := by simpa [hshow] using h1
    have h2' : (jsTrim s.email == "") = false := by simpa [hreq] using h2
    have h4' : validateServiceId2 (computeNormalizedId s.serviceId (some config))
        config = true := by simpa [hshow] using h4
    have h5' : validateEmailForRole (jsTrimLower s.email) config = none := by
      have h5a := h5
      rw [hreq] at h5a
      simp only [Bool.not_true, Bool.false_or] at h5a
      rwa [Option.isNone_iff_eq_none] at h5a
    unfold handleLoginWithConfig
    rw [if_neg (by simp [hshow, hreq, h1', h2', h3'])]
    simp only [hshow, if_true, hreq, h4', Bool.not_true, Bool.and_false,
      Bool.false_eq_true, if_false, h5', h6', h3']
    by_cases hn : 3 ≤ s.failedAttempts + 1 <;> simp [hn]
  · have h1' : (s.serviceId == "") = false := by simpa [hshow] using h1
    have h4' : validateServiceId2 (computeNormalizedId s.serviceId (some config))
        config = true := by simpa [hshow] using h4
    have hreqf : requiresEmailEntryOf (some config) = false := by simpa using hreq
    unfold handleLoginWithConfig
    rw [if_neg (by simp [hshow, hreqf, h1', h3'])]
    simp only [hshow, if_true, hreqf, h4', Bool.not_true, Bool.and_false,
      Bool.false_eq_true, if_false, Bool.false_and, h6', h3']
    by_cases hn : 3 ≤ s.failedAttempts + 1 <;> simp [hn]
  · have hshowf : showServiceIdFieldOf (some config) = false := by simpa using hshow
    have h2' : (jsTrim s.email == "") = false := by simpa [hreq] using h2
    have h5' : validateEmailForRole (jsTrimLower s.email) config = none := by
      have h5a := h5
      rw [hreq] at h5a
      simp only [Bool.not_true, Bool.false_or] at h5a
      rwa [Option.isNone_iff_eq_none] at h5a
    unfold handleLoginWithConfig
    rw [if_neg (by simp [hshowf, hreq, h2', h3'])]
    simp only [hshowf, Bool.false_eq_true, if_false, hreq, if_true, h5',
      Bool.false_and, h6', h3']
    by_cases hn : 3 ≤ s.failedAttempts + 1 <;> simp [hn]
  · have hshowf : showServiceIdFieldOf (some config) = false := by simpa using hshow
    have hreqf : requiresEmailEntryOf (some config) = false := by simpa using hreq
    unfold handleLoginWithConfig
    rw [if_neg (by simp [hshowf, hreqf, h3'])]
    simp only [hshowf, Bool.false_eq_true, if_false, hreqf, Bool.false_and, h6', h3']
    by_cases hn : 3 ≤ s.failedAttempts + 1 <;> simp [hn]

theorem validSubmission_preserved (config : RoleConfig) (s : LoginFormState)
    (hv : validSubmissionWithConfig config s = true)
    (hEmpty : config.idPattern "" = false) :
    validSubmissionWithConfig config (handleLoginWithConfig config s false).1 = true := by
  have heq := handleLoginWithConfig_fail_eq config s hv
  rw [heq]
  have hv2 := hv
  unfold validSubmissionWithConfig at hv2 ⊢
  simp only [Bool.and_eq_true] at hv2 ⊢
  obtain ⟨⟨⟨⟨⟨h1, h2⟩, h3⟩, h4⟩, h5⟩, h6⟩ := hv2
  by_cases hshow : showServiceIdFieldOf (some config) = true <;>
  by_cases hreq : requiresEmailEntryOf (some config) = true
  · have h4' : validateServiceId2 (computeNormalizedId s.serviceId (some config))
        config = true := by simpa [hshow] using h4
    have h5' : validateEmailForRole (jsTrimLower s.email) config = none := by
      have h5a := h5
      rw [hreq] at h5a
      simp only [Bool.not_true, Bool.false_or] at h5a
      rwa [Option.isNone_iff_eq_none] at h5a
    have hsid : (computeNormalizedId s.serviceId (some config) == "") = false := by
      by_cases hx : computeNormalizedId s.serviceId (some config) = ""
      · exfalso
        rw [hx] at h4'
        unfold validateServiceId2 at h4'
        exact absurd h4' (by simp [hEmpty])
      · simpa using hx
    have hmail : (jsTrimLower s.email == "") = false := by
      have := validateEmailForRole_none_nonempty (jsTrimLower s.email) config h5'
      rwa [jsTrimLower_idem] at this
    refine ⟨⟨⟨⟨⟨?_, ?_⟩, ?_⟩, ?_⟩, ?_⟩, ?_⟩
    · simp [hshow, hreq, hsid]
    · simp [hshow, hreq, jsTrim_jsTrimLower, hmail]
    · simpa using h3
    · simp only [hshow, if_true, Bool.not_true, Bool.false_or]
      rw [normalizeId_idem]
      exact h4'
    · simp only [hreq, if_true, Bool.not_true, Bool.false_or]
      rw [jsTrimLower_idem]
      simp [h5']
    · simpa using h6
  · have h4' : validateServiceId2 (computeNormalizedId s.serviceId (some config))
        config = true := by simpa [hshow] using h4
    have hreqf : requiresEmailEntryOf (some config) = false := by simpa using hreq
    have hsid : (computeNormalizedId s.serviceId (some config) == "") = false := by
      by_cases hx : computeNormalizedId s.serviceId (some config) = ""
      · exfalso
        rw [hx] at h4'
        unfold validateServiceId2 at h4'
        exact absurd h4' (by simp [hEmpty])
      · simpa using hx
    refine ⟨⟨⟨⟨⟨?_, ?_⟩, ?_⟩, ?_⟩, ?_⟩, ?_⟩
    · simp [hshow, hreqf, hsid]
    · simp [hreqf]
    · simpa using h3
    · simp only [hshow, if_true, Bool.not_true, Bool.false_or]
      rw [normalizeId_idem]
      exact h4'
    · simp [hreqf]
    · simpa using h6
  · have hshowf : showServiceIdFieldOf (some config) = false := by simpa using hshow
    have h5' : validateEmailForRole (jsTrimLower s.email) config = none := by
      have h5a := h5
      rw [hreq] at h5a
      simp only [Bool.not_true, Bool.false_or] at h5a
      rwa [Option.isNone_iff_eq_none] at h5a
    have hmail : (jsTrimLower s.email == "") = false := by
      have := validateEmailForRole_none_nonempty (jsTrimLower s.email) config h5'
      rwa [jsTrimLower_idem] at this
    refine ⟨⟨⟨⟨⟨?_, ?_⟩, ?_⟩, ?_⟩, ?_⟩, ?_⟩
    · simp [hshowf]
    · simp [hshowf, hreq, jsTrim_jsTrimLower, hmail]
    · simpa using h3
    · simp [hshowf]
    · simp only [hreq, if_true, Bool.not_true, Bool.false_or]
      rw [jsTrimLower_idem]
      simp [h5']
    · simpa using h6
  · have hshowf : showServiceIdFieldOf (some config) = false := by simpa using hshow
    have hreqf : requiresEmailEntryOf (some config) = false := by simpa using hreq
    refine ⟨⟨⟨⟨⟨?_, ?_⟩, ?_⟩, ?_⟩, ?_⟩, ?_⟩
    · simp [hshowf]
    · simp [hreqf]
    · simpa using h3
    · simp [hshowf]
    · simp [hreqf]
    · simpa using h6

/-- C2.  For every account (an arbitrary form state carrying a selected
role and a submission that passes credential, email, and password-policy
validation, with a fresh lockout counter): three consecutive failed
password checks transition the login state machine to `Locked`, and any
fourth attempt made while locked yields `AccountLocked` with the state
untouched, for either outcome of the password check — the locked page
replaces the form, so the password hash is never consulted. -/
theorem lockout_after_three_failed_attempts (s0 : LoginFormState) (role : RoleKey)
    (hrole : s0.userType = some role)
    (hval : validLoginSubmission s0 = true)
    (hlock : s0.isLocked = false) (hfail : s0.failedAttempts = 0) :
    ((attemptLogin ((attemptLogin ((attemptLogin s0 false).1) false).1) false).2 =
        LoginOutcome.accountLocked) ∧
    ((attemptLogin ((attemptLogin ((attemptLogin s0 false).1) false).1) false).1.isLocked
        = true) ∧
    (∀ b : Bool,
      attemptLogin
          ((attemptLogin ((attemptLogin ((attemptLogin s0 false).1) false).1) false).1) b =
        ((attemptLogin ((attemptLogin ((attemptLogin s0 false).1) false).1) false).1,
         LoginOutcome.accountLocked)) := by
  have hstep : ∀ s : LoginFormState, s.userType = some role →
      validSubmissionWithConfig (roleConfigurations role) s = true → s.isLocked = false →
      (attemptLogin s false).1.userType = some role ∧
      (attemptLogin s false).1.failedAttempts = s.failedAttempts + 1 ∧
      (attemptLogin s false).1.isLocked =
        (if 3 ≤ s.failedAttempts + 1 then true else false) ∧
      validSubmissionWithConfig (roleConfigurations role) (attemptLogin s false).1 = true ∧
      (attemptLogin s false).2 =
        (if 3 ≤ s.failedAttempts + 1 then LoginOutcome.accountLocked
         else LoginOutcome.loginFailed (3 - (s.failedAttempts + 1))) := by
    intro s hr hv hl
    have hAtt : attemptLogin s false =
        handleLoginWithConfig (roleConfigurations role) s false := by
      unfold attemptLogin
      rw [if_neg (by simp [hl])]
      unfold handleLogin
      rw [hr]
    have hpres := validSubmission_preserved (roleConfigurations role) s hv
      (idPattern_empty role)
    have heq := handleLoginWithConfig_fail_eq (roleConfigurations role) s hv
    rw [heq] at hpres
    rw [hAtt, heq]
    refine ⟨hr, rfl, ?_, hpres, rfl⟩
    show (if 3 ≤ s.failedAttempts + 1 then true else s.isLocked) =
      (if 3 ≤ s.failedAttempts + 1 then true else false)
    rw [hl]
  have hv0 : validSubmissionWithConfig (roleConfigurations role) s0 = true := by
    unfold validLoginSubmission at hval
    rw [hrole] at hval
    exact hval
  obtain ⟨hu1, hf1, hl1, hv1, ho1⟩ := hstep s0 hrole hv0 hlock
  have hf1n : (attemptLogin s0 false).1.failedAttempts = 1 := by rw [hf1, hfail]
  have hl1n : (attemptLogin s0 false).1.isLocked = false := by
    rw [hl1, hfail]
    decide
  obtain ⟨hu2, hf2, hl2, hv2, ho2⟩ := hstep _ hu1 hv1 hl1n
  have hf2n : (attemptLogin ((attemptLogin s0 false).1) false).1.failedAttempts = 2 := by
    rw [hf2, hf1n]
  have hl2n : (attemptLogin ((attemptLogin s0 false).1) false).1.isLocked = false := by
    rw [hl2, hf1n]
    decide
  obtain ⟨hu3, hf3, hl3, hv3, ho3⟩ := hstep _ hu2 hv2 hl2n
  have hlout :
      (attemptLogin ((attemptLogin ((attemptLogin s0 false).1) false).1) false).2 =
        LoginOutcome.accountLocked := by
    rw [ho3, hf2n]
    decide
  have hlocked :
      (attemptLogin ((attemptLogin ((attemptLogin s0 false).1) false).1) false).1.isLocked
        = true := by
    rw [hl3, hf2n]
    decide
  refine ⟨hlout, hlocked, ?_⟩
  intro b
  exact attemptLogin_of_locked _ b hlocked

/-- Witness for C2: a concrete personnel submission (`ARMY123456`,
defence email, baseline-compliant password).  After three failed password
checks the form is locked, and a fourth attempt — with either password
check outcome — returns the locked page. -/
theorem lockout_after_three_failed_attempts_witness :
    (let s0 : LoginFormState :=
      { userType := some .personnel, serviceId := "ARMY123456",
        email := "jane@army.mil.in", password := "Password123!" }
     ((attemptLogin ((attemptLogin ((attemptLogin s0 false).1) false).1) false).2 =
         LoginOutcome.accountLocked) ∧
     ((attemptLogin ((attemptLogin ((attemptLogin s0 false).1) false).1) false).1.isLocked
         = true) ∧
     (∀ b : Bool,
       attemptLogin
           ((attemptLogin ((attemptLogin ((attemptLogin s0 false).1) false).1) false).1) b =
         ((attemptLogin ((attemptLogin ((attemptLogin s0 false).1) false).1) false).1,
          LoginOutcome.accountLocked))) :=
  lockout_after_three_failed_attempts
    { userType := some .personnel, serviceId := "ARMY123456",
      email := "jane@army.mil.in", password := "Password123!" }
    .personnel rfl (by decide) rfl rfl
